import Mathlib

/-!
Shallow embedding of the Lifecycle Automation Core of the ml-newsletter-optimizer
repository: the Hygiene Risk Scorer (src/lib/hygiene.ts), the Send-Time Optimizer
(src/lib/optimizer.ts) and the Flow Execution Engine (src/lib/flows.ts), together
with proofs settling the frozen claims about them.

Modelling conventions:
* JS `number` values that hold counts are `ℕ`; scores / ratios computed in floating
  point are modelled as exact rationals `ℚ`; `Date` values are integer milliseconds
  since the Unix epoch (`ℤ`), which is exactly the JS time value.
* Database reads are passed in as explicit inputs (a contact lookup function, the
  histograms built from the message table, a segment-membership oracle); database
  writes are returned as explicit outputs (updated rows, created rows, counters).
* Nullable fields are `Option`; thrown JS exceptions are `Except String`.
-/

namespace Newsletter

/-- Prisma enum `ContactStatus` (values as used across the repository). -/
inductive ContactStatus
  | ACTIVE
  | BOUNCED
  | COMPLAINED
  | SUPPRESSED
  deriving DecidableEq, Repr

/-- Prisma enum `HygieneRiskLevel`. -/
inductive HygieneRiskLevel
  | LOW
  | MEDIUM
  | HIGH
  deriving DecidableEq, Repr

/-- Prisma enum `FlowStepType`. -/
inductive FlowStepType
  | TRIGGER
  | DELAY
  | SEGMENT_FILTER
  | SEND_TEMPLATE
  deriving DecidableEq, Repr

/-- Prisma enum `FlowRunStatus`. -/
inductive FlowRunStatus
  | PENDING
  | WAITING
  | COMPLETED
  | CANCELLED
  | FAILED
  deriving DecidableEq, Repr

/-- Prisma enum `MessageStatus` (the two states the flow engine writes). -/
inductive MessageStatus
  | SCHEDULED
  | SENT
  deriving DecidableEq, Repr

/-! ## Hygiene Risk Scorer — src/lib/hygiene.ts -/

/-- A `Suppression` row as created/read by the hygiene sweep
(`select { id, reason }` on read; `{contactId, reason, source, notes}` on create). -/
structure Suppression where
  reason : String
  source : String
  notes : String
  deriving DecidableEq, Repr

/-- `HygieneComputationInput` from src/lib/hygiene.ts.  `propensity` is
`Prisma.Decimal | number | null` in the source; both non-null forms are exact
decimal values, embedded as `ℚ`. -/
structure HygieneComputationInput where
  id : String
  status : ContactStatus
  tags : List String
  lastEventAt : Option ℤ
  lastMessageSentAt : Option ℤ
  propensity : Option ℚ
  suppressions : List Suppression
  deriving DecidableEq, Repr

/-- `HygieneComputationResult` from src/lib/hygiene.ts. -/
structure HygieneComputationResult where
  contactId : String
  riskLevel : HygieneRiskLevel
  score : ℚ
  reasons : List String
  shouldSuppress : Bool
  deriving DecidableEq, Repr

def msPerDay : ℤ := 24 * 60 * 60 * 1000

def STALE_EVENT_THRESHOLD_DAYS : ℚ := 60

def STALE_SEND_THRESHOLD_DAYS : ℚ := 90

def LOW_PROPENSITY_THRESHOLD : ℚ := 3 / 20

def HYGIENE_SUPPRESSION_REASON : String := "hygiene-risk"

/-- `(now.getTime() - last.getTime()) / msPerDay` with `Infinity` for a missing
timestamp; `none` plays `Infinity`. -/
def daysSince (last : Option ℤ) (nowMs : ℤ) : Option ℚ :=
  match last with
  | none => none
  | some t => some ((nowMs - t : ℤ) / (msPerDay : ℚ))

/-- JS comparison `d > threshold` where `d` may be `Infinity` (`none`). -/
def daysGT (d : Option ℚ) (threshold : ℚ) : Bool :=
  match d with
  | none => true
  | some v => threshold < v

/-- JS comparison `d < threshold` where `d` may be `Infinity` (`none`). -/
def daysLT (d : Option ℚ) (threshold : ℚ) : Bool :=
  match d with
  | none => false
  | some v => v < threshold

/-- `computeHygieneScore` from src/lib/hygiene.ts, translated clause by clause:
status floor first (BOUNCED 95 / COMPLAINED 98 / SUPPRESSED 90, all HIGH and
suppressible), then — only when the tier is not HIGH — the recency and propensity
checks with a running `max` on the score, then the healthy-engagement floor, and
finally the synthetic-tag safeguard that clears `shouldSuppress` on HIGH. -/
def computeHygieneScore (input : HygieneComputationInput) (nowMs : ℤ) :
    HygieneComputationResult :=
  let propensityValue : ℚ := input.propensity.getD 0
  let state0 : HygieneRiskLevel × ℚ × List String × Bool :=
    match input.status with
    | ContactStatus.BOUNCED => (HygieneRiskLevel.HIGH, 95, ["Hard bounce detected"], true)
    | ContactStatus.COMPLAINED => (HygieneRiskLevel.HIGH, 98, ["Complaint reported"], true)
    | ContactStatus.SUPPRESSED => (HygieneRiskLevel.HIGH, 90, ["Contact already suppressed"], true)
    | ContactStatus.ACTIVE => (HygieneRiskLevel.LOW, 20, [], false)
  let riskLevel := state0.1
  let score := state0.2.1
  let reasons := state0.2.2.1
  let shouldSuppress := state0.2.2.2
  let daysSinceEvent := daysSince input.lastEventAt nowMs
  let daysSinceSend := daysSince input.lastMessageSentAt nowMs
  let afterChecks : HygieneRiskLevel × ℚ × List String :=
    if riskLevel ≠ HygieneRiskLevel.HIGH then
      let s1 :=
        if daysGT daysSinceSend STALE_SEND_THRESHOLD_DAYS then
          (HygieneRiskLevel.MEDIUM, max score 65, reasons ++ ["No sends in last 90 days"])
        else
          (riskLevel, score, reasons)
      let s2 :=
        if daysGT daysSinceEvent STALE_EVENT_THRESHOLD_DAYS then
          ((if s1.1 = HygieneRiskLevel.LOW then HygieneRiskLevel.MEDIUM else s1.1),
            max s1.2.1 55, s1.2.2 ++ ["No engagement events in last 60 days"])
        else
          s1
      let s3 :=
        if 0 < propensityValue ∧ propensityValue < LOW_PROPENSITY_THRESHOLD then
          ((if s2.1 = HygieneRiskLevel.LOW then HygieneRiskLevel.MEDIUM else s2.1),
            max s2.2.1 50, s2.2.2 ++ ["Low propensity segment"])
        else
          s2
      if s3.1 = HygieneRiskLevel.LOW ∧ LOW_PROPENSITY_THRESHOLD ≤ propensityValue ∧
          daysLT daysSinceEvent STALE_EVENT_THRESHOLD_DAYS then
        (s3.1, 25, s3.2.2 ++ ["Healthy engagement"])
      else
        s3
    else
      (riskLevel, score, reasons)
  let finalSuppress :=
    if afterChecks.1 = HygieneRiskLevel.HIGH ∧ input.tags.contains "synthetic" then
      false
    else
      shouldSuppress
  let finalReasons :=
    if afterChecks.1 = HygieneRiskLevel.HIGH ∧ input.tags.contains "synthetic" then
      afterChecks.2.2 ++ ["Synthetic contact safeguard"]
    else
      afterChecks.2.2
  { contactId := input.id
    riskLevel := afterChecks.1
    score := afterChecks.2.1
    reasons := finalReasons
    shouldSuppress := finalSuppress }

set_option linter.unnecessarySeqFocus false in
/-- The status floor of `computeHygieneScore`: the tier is HIGH exactly for the
three terminal statuses, since the later checks only ever raise LOW to MEDIUM. -/
theorem computeHygieneScore_high_iff (input : HygieneComputationInput) (nowMs : ℤ) :
    (computeHygieneScore input nowMs).riskLevel = HygieneRiskLevel.HIGH ↔
      (input.status = ContactStatus.BOUNCED ∨ input.status = ContactStatus.COMPLAINED ∨
        input.status = ContactStatus.SUPPRESSED) := by
  cases hst : input.status <;>
  by_cases h1 : daysGT (daysSince input.lastMessageSentAt nowMs) STALE_SEND_THRESHOLD_DAYS <;>
  by_cases h2 : daysGT (daysSince input.lastEventAt nowMs) STALE_EVENT_THRESHOLD_DAYS <;>
  by_cases h3 : 0 < input.propensity.getD 0 ∧
    input.propensity.getD 0 < LOW_PROPENSITY_THRESHOLD <;>
  simp [computeHygieneScore, hst, h1, h2, h3] <;> (split <;> simp)

/-- Claim C6: a contact tagged "synthetic" whose status is COMPLAINED scores
riskLevel HIGH with score 98, `shouldSuppress = false`, and the reasons list is
"Complaint reported" followed by "Synthetic contact safeguard". -/
theorem C6_synthetic_complained_high_not_suppressed (input : HygieneComputationInput)
    (nowMs : ℤ) (hst : input.status = ContactStatus.COMPLAINED)
    (htag : "synthetic" ∈ input.tags) :
    (computeHygieneScore input nowMs).riskLevel = HygieneRiskLevel.HIGH ∧
    (computeHygieneScore input nowMs).score = 98 ∧
    (computeHygieneScore input nowMs).shouldSuppress = false ∧
    (computeHygieneScore input nowMs).reasons =
      ["Complaint reported", "Synthetic contact safeguard"] := by
  simp [computeHygieneScore, hst, htag]

/-- A concrete synthetic COMPLAINED contact (the shape used by the repo's own
hygiene test data). -/
def syntheticComplainedContact : HygieneComputationInput :=
  { id := "contact-2"
    status := ContactStatus.COMPLAINED
    tags := ["synthetic"]
    lastEventAt := some 0
    lastMessageSentAt := some 0
    propensity := some (1 / 2)
    suppressions := [] }

/-- Witness for C6 at a concrete contact. -/
theorem C6_synthetic_complained_high_not_suppressed_witness :
    syntheticComplainedContact.status = ContactStatus.COMPLAINED ∧
    "synthetic" ∈ syntheticComplainedContact.tags ∧
    ((computeHygieneScore syntheticComplainedContact 0).riskLevel = HygieneRiskLevel.HIGH ∧
      (computeHygieneScore syntheticComplainedContact 0).score = 98 ∧
      (computeHygieneScore syntheticComplainedContact 0).shouldSuppress = false ∧
      (computeHygieneScore syntheticComplainedContact 0).reasons =
        ["Complaint reported", "Synthetic contact safeguard"]) :=
  ⟨rfl, by simp [syntheticComplainedContact],
    C6_synthetic_complained_high_not_suppressed syntheticComplainedContact 0 rfl
      (by simp [syntheticComplainedContact])⟩

/-- Claim C9 (implicit): `computeHygieneScore` returns HIGH exactly for statuses
BOUNCED, COMPLAINED, SUPPRESSED; for every other status (ACTIVE) the tier is at
most MEDIUM and the score is one of 20, 25, 50, 55, 65. -/
theorem C9_risk_tier_and_score_range (input : HygieneComputationInput) (nowMs : ℤ) :
    ((computeHygieneScore input nowMs).riskLevel = HygieneRiskLevel.HIGH ↔
      (input.status = ContactStatus.BOUNCED ∨ input.status = ContactStatus.COMPLAINED ∨
        input.status = ContactStatus.SUPPRESSED)) ∧
    (input.status = ContactStatus.ACTIVE →
      (computeHygieneScore input nowMs).riskLevel ≠ HygieneRiskLevel.HIGH ∧
      ((computeHygieneScore input nowMs).score = 20 ∨
        (computeHygieneScore input nowMs).score = 25 ∨
        (computeHygieneScore input nowMs).score = 50 ∨
        (computeHygieneScore input nowMs).score = 55 ∨
        (computeHygieneScore input nowMs).score = 65)) := by
  refine ⟨computeHygieneScore_high_iff input nowMs, fun hst => ?_⟩
  constructor
  · intro h
    rcases (computeHygieneScore_high_iff input nowMs).mp h with h' | h' | h' <;>
      simp [hst] at h'
  · by_cases h1 : daysGT (daysSince input.lastMessageSentAt nowMs) STALE_SEND_THRESHOLD_DAYS <;>
    by_cases h2 : daysGT (daysSince input.lastEventAt nowMs) STALE_EVENT_THRESHOLD_DAYS <;>
    by_cases h3 : 0 < input.propensity.getD 0 ∧
      input.propensity.getD 0 < LOW_PROPENSITY_THRESHOLD <;>
    simp [computeHygieneScore, hst, h1, h2, h3] <;>
    (try split) <;> norm_num [max_def]

/-! ## Send-Time Optimizer histograms — src/lib/optimizer.ts -/

def HOURS_PER_WEEK : ℕ := 7 * 24

def SMOOTHING_ALPHA : ℚ := 5

/-- A send/click histogram over the 168 hour-of-week buckets (JS arrays of
counts; reads use `?? 0` past the end, embedded as `getD _ 0`). -/
structure Histogram where
  sends : List ℕ
  clicks : List ℕ
  deriving DecidableEq, Repr

/-- `computePrior`: overall click-through rate, with the fixed default 0.05
(= 1/20) when the histogram holds no sends (`if (!totalSends) return 0.05`). -/
def computePrior (histogram : Histogram) : ℚ :=
  let totalSends := histogram.sends.sum
  let totalClicks := histogram.clicks.sum
  if totalSends = 0 then 1 / 20 else (totalClicks : ℚ) / (totalSends : ℚ)

/-- `scoreHistogram`: Laplace-smoothed click rate of one hour bucket,
`(clicks[h] + α·prior) / (sends[h] + α)` with α = 5. -/
def scoreHistogram (hour : ℕ) (histogram : Histogram) (prior : ℚ) : ℚ :=
  let sends := histogram.sends.getD hour 0
  let clicks := histogram.clicks.getD hour 0
  ((clicks : ℚ) + SMOOTHING_ALPHA * prior) / ((sends : ℚ) + SMOOTHING_ALPHA)

/-- The `for (hour = 0; hour < 168; ...)` best-score scan of `pickBestHour`,
unrolled as recursion on the upper bound: `bestScan scores n` is the
(bestHour, bestScore) pair after the iterations for hours `0 … n-1`.  The source
seeds `bestScore = -Infinity`, so the hour-0 iteration always assigns; this is
embedded by seeding the scan with `(0, scores 0)`, which that first iteration
produces. -/
def bestScan (scores : ℕ → ℚ) : ℕ → ℕ × ℚ
  | 0 => (0, scores 0)
  | n + 1 =>
    let acc := bestScan scores n
    if acc.2 < scores n then (n, scores n) else acc

/-- The score of hour `h` of a histogram under its own prior. -/
def hourScore (histogram : Histogram) (h : ℕ) : ℚ :=
  scoreHistogram h histogram (computePrior histogram)

/-- Result triple of `pickBestHour`. -/
structure BestHour where
  hour : ℕ
  score : ℚ
  baseline : ℚ
  deriving DecidableEq, Repr

/-- `pickBestHour` from src/lib/optimizer.ts: strict-improvement left-to-right
scan over the 168 hours of `histogram`, then the baseline score of the winning
hour against the `fallback` (global) histogram under its own prior. -/
def pickBestHour (histogram : Histogram) (fallback : Histogram) : BestHour :=
  let best := bestScan (hourScore histogram) HOURS_PER_WEEK
  { hour := best.1
    score := best.2
    baseline := scoreHistogram best.1 fallback (computePrior fallback) }

/-- Scan invariant: after scanning hours `0 … n-1` (n ≥ 1) the accumulator holds
an hour below `n` carrying its own score, every earlier hour scores strictly
less, and every scanned hour scores at most the accumulator. -/
theorem bestScan_spec (scores : ℕ → ℚ) (n : ℕ) (hn : 1 ≤ n) :
    (bestScan scores n).2 = scores (bestScan scores n).1 ∧
    (bestScan scores n).1 < n ∧
    (∀ i < (bestScan scores n).1, scores i < (bestScan scores n).2) ∧
    (∀ j < n, scores j ≤ (bestScan scores n).2) := by
  induction n with
  | zero => omega
  | succ m ih =>
    rcases Nat.eq_or_lt_of_le hn with h1 | h1
    · have hm : m = 0 := by omega
      subst hm
      refine ⟨?_, ?_, ?_, ?_⟩ <;> simp [bestScan]
    · have hm : 1 ≤ m := by omega
      obtain ⟨ihv, ihlt, ihearlier, ihle⟩ := ih hm
      by_cases hcmp : (bestScan scores m).2 < scores m
      · have hstep : bestScan scores (m + 1) = (m, scores m) := by
          rw [bestScan]
          simp [hcmp]
        refine ⟨by simp [hstep], by simp [hstep], ?_, ?_⟩
        · intro i hi
          rw [hstep] at hi ⊢
          simp only at hi ⊢
          rcases Nat.lt_or_ge i (bestScan scores m).1 with hlt | hge
          · exact lt_trans (ihearlier i hlt) hcmp
          · exact lt_of_le_of_lt (ihv ▸ ihle i (by omega)) hcmp
        · intro j hj
          rw [hstep]
          simp only
          rcases Nat.lt_or_ge j m with hlt | hge
          · exact le_of_lt (lt_of_le_of_lt (ihle j hlt) hcmp)
          · have : j = m := by omega
            exact this ▸ le_refl _
      · have hstep : bestScan scores (m + 1) = bestScan scores m := by
          rw [bestScan]
          simp [hcmp]
        refine ⟨by rw [hstep]; exact ihv, by rw [hstep]; omega, ?_, ?_⟩
        · intro i hi
          rw [hstep] at hi ⊢
          exact ihearlier i hi
        · intro j hj
          rw [hstep]
          rcases Nat.lt_or_ge j m with hlt | hge
          · exact ihle j hlt
          · have : j = m := by omega
            subst this
            exact le_of_not_lt hcmp

/-- Claim C8: the recommended hour-of-week is the index in [0,168) whose smoothed
score strictly exceeds every earlier hour's and is at least every later hour's —
i.e. the lowest-index hour among the maximal-score ties of a left-to-right scan. -/
theorem C8_pick_best_hour_first_argmax (histogram fallback : Histogram) :
    (pickBestHour histogram fallback).hour < 168 ∧
    (∀ i < (pickBestHour histogram fallback).hour,
      hourScore histogram i < hourScore histogram (pickBestHour histogram fallback).hour) ∧
    (∀ j, (pickBestHour histogram fallback).hour ≤ j → j < 168 →
      hourScore histogram j ≤ hourScore histogram (pickBestHour histogram fallback).hour) := by
  obtain ⟨hv, hlt, hearlier, hle⟩ :=
    bestScan_spec (hourScore histogram) HOURS_PER_WEEK (by norm_num [HOURS_PER_WEEK])
  have hhour : (pickBestHour histogram fallback).hour =
      (bestScan (hourScore histogram) HOURS_PER_WEEK).1 := by
    simp [pickBestHour]
  refine ⟨?_, ?_, ?_⟩
  · rw [hhour]
    simpa [HOURS_PER_WEEK] using hlt
  · intro i hi
    rw [hhour] at hi ⊢
    rw [← hv]
    exact hearlier i hi
  · intro j hj1 hj2
    rw [hhour] at hj1 ⊢
    rw [← hv]
    exact hle j (by simpa [HOURS_PER_WEEK] using hj2)

/-- A witness applying C8 at a concrete pair of histograms. -/
theorem C8_pick_best_hour_first_argmax_witness :
    (pickBestHour ⟨List.replicate 168 0, List.replicate 168 0⟩
      ⟨List.replicate 168 0, List.replicate 168 0⟩).hour < 168 :=
  (C8_pick_best_hour_first_argmax ⟨List.replicate 168 0, List.replicate 168 0⟩
    ⟨List.replicate 168 0, List.replicate 168 0⟩).1

/-- Every `getD _ 0` read of an all-zero list is zero. -/
theorem getD_zero_of_all_zero (l : List ℕ) (hall : ∀ c ∈ l, c = 0) (n : ℕ) :
    l.getD n 0 = 0 := by
  induction l generalizing n with
  | nil => simp
  | cons a t ih =>
    cases n with
    | zero => simpa using hall a (by simp)
    | succ m =>
      have := ih (fun c hc => hall c (by simp [hc]))
      simpa [List.getD] using this m

/-- A 168-bucket histogram with three sends, zero clicks everywhere, and
distinct send counts in buckets 0 and 1. -/
def allZeroClicksHistogram : Histogram :=
  { sends := 1 :: 2 :: List.replicate 166 0
    clicks := List.replicate 168 0 }

set_option maxRecDepth 10000 in
/-- Counterexample to claim C3: for a histogram with nonzero total sends and
zero clicks in every bucket, the per-hour score is NOT strictly decreasing in
`sends[h]` — the prior is 0, so the score is 0 at both `sends = 1` (hour 0) and
`sends = 2` (hour 1). -/
theorem C3_counterexample_score_not_strictly_decreasing :
    allZeroClicksHistogram.sends.sum ≠ 0 ∧
    (∀ c ∈ allZeroClicksHistogram.clicks, c = 0) ∧
    allZeroClicksHistogram.sends.getD 0 0 < allZeroClicksHistogram.sends.getD 1 0 ∧
    hourScore allZeroClicksHistogram 0 = hourScore allZeroClicksHistogram 1 := by
  refine ⟨by simp [allZeroClicksHistogram], by simp [allZeroClicksHistogram], ?_, ?_⟩
  · simp [allZeroClicksHistogram]
  · norm_num [hourScore, scoreHistogram, computePrior, allZeroClicksHistogram, SMOOTHING_ALPHA]

/-- Claim C3 as amended: with zero total sends the prior is exactly 0.05; with
nonzero total sends and zero clicks in every bucket the prior is 0 and every
hour's score equals `α·prior/(sends[h]+α)`, which is identically 0 — weakly, not
strictly, decreasing in `sends[h]`. -/
theorem C3_amended_prior_and_zero_click_scores :
    (∀ hist : Histogram, hist.sends.sum = 0 → computePrior hist = 1 / 20) ∧
    (∀ hist : Histogram, hist.sends.sum ≠ 0 → (∀ c ∈ hist.clicks, c = 0) →
      computePrior hist = 0 ∧
      ∀ h : ℕ,
        hourScore hist h =
          SMOOTHING_ALPHA * computePrior hist /
            ((hist.sends.getD h 0 : ℚ) + SMOOTHING_ALPHA) ∧
        hourScore hist h = 0) := by
  constructor
  · intro hist hsum
    simp [computePrior, hsum]
  · intro hist hsum hzero
    have hclick : hist.clicks.sum = 0 := by
      exact List.sum_eq_zero hzero
    have hprior : computePrior hist = 0 := by
      simp [computePrior, hsum, hclick]
    refine ⟨hprior, fun h => ?_⟩
    have hget : hist.clicks.getD h 0 = 0 := getD_zero_of_all_zero hist.clicks hzero h
    have hscore : hourScore hist h = 0 := by
      show ((hist.clicks.getD h 0 : ℚ) + SMOOTHING_ALPHA * computePrior hist) /
          ((hist.sends.getD h 0 : ℚ) + SMOOTHING_ALPHA) = 0
      rw [hget, hprior]
      norm_num
    refine ⟨?_, hscore⟩
    rw [hscore, hprior]
    norm_num

set_option maxRecDepth 10000 in
/-- A witness applying the amended C3 at concrete histograms. -/
theorem C3_amended_prior_and_zero_click_scores_witness :
    computePrior ⟨List.replicate 168 0, List.replicate 168 0⟩ = 1 / 20 ∧
    hourScore allZeroClicksHistogram 1 = 0 :=
  ⟨C3_amended_prior_and_zero_click_scores.1 ⟨List.replicate 168 0, List.replicate 168 0⟩
      (by simp),
    (C3_amended_prior_and_zero_click_scores.2 allZeroClicksHistogram
      (by simp [allZeroClicksHistogram])
      (by simp [allZeroClicksHistogram]) |>.2 1).2⟩

/-! ## Send-Time Optimizer recommendation — src/lib/optimizer.ts -/

def msPerHour : ℤ := 60 * 60 * 1000

def msPerWeek : ℤ := 7 * 24 * 60 * 60 * 1000

def ONE_DAY_MS : ℤ := 24 * 60 * 60 * 1000

def HISTOGRAM_CACHE_TTL_MS : ℤ := 60 * 1000

/-- `date.getUTCDay()`: 0 = Sunday … 6 = Saturday.  The Unix epoch was a
Thursday (day 4); `fdiv` is floor division, matching the JS calendar also for
instants before the epoch. -/
def getUTCDay (t : ℤ) : ℤ := (t.fdiv msPerDay + 4) % 7

/-- Truncation to the start of the UTC day, the effect of `setUTCHours(h,0,0,0)`
before the hour is added back. -/
def startOfUTCDay (t : ℤ) : ℤ := t.fdiv msPerDay * msPerDay

/-- `getNextDateForHour` from src/lib/optimizer.ts.  The timezone branch reads
the wall-clock year/month/day/hour/minute/second fields of `reference` in the
contact's IANA timezone via `Intl.DateTimeFormat` and writes them back with the
`setUTC*` setters (milliseconds zeroed) — it re-interprets the wall clock as UTC
without converting back.  A fixed-offset timezone (offset `off` ms, e.g.
Etc/GMT+4 has off = -4h) is embedded as `some off`, for which that wall-clock
rewrite is exactly `⌊(reference + off)/1000⌋·1000`.  From the recomputed base
the code jumps forward `(dayOffset - base.getUTCDay() + 7) % 7` days (a whole
number of days via `setUTCDate`), sets the hour-of-day, and adds 7 days when the
result is not strictly after the base. -/
def getNextDateForHour (reference : ℤ) (hourOfWeekValue : ℕ) (timezoneOffset : Option ℤ) :
    ℤ :=
  let base : ℤ :=
    match timezoneOffset with
    | none => reference
    | some off => (reference + off).fdiv 1000 * 1000
  let utcHour : ℤ := (hourOfWeekValue : ℤ) % 24
  let dayOffset : ℤ := (hourOfWeekValue : ℤ) / 24
  let shifted : ℤ := base + ((dayOffset - getUTCDay base + 7) % 7) * msPerDay
  let result : ℤ := startOfUTCDay shifted + utcHour * msPerHour
  if result ≤ base then result + msPerWeek else result

/-- `getSegmentTag`: the first tag starting with "segment=", keeping the text
between the first and second "=" (JS `tag.split("=")[1] ?? null`). -/
def getSegmentTag (tags : List String) : Option String :=
  match tags.find? (fun value => value.startsWith "segment=") with
  | none => none
  | some tag => (tag.splitOn "=").get? 1

/-- JS string truthiness as applied to the optional segment tag value:
`null` and `""` are falsy. -/
def truthyString (s : Option String) : Option String :=
  match s with
  | none => none
  | some v => if v.isEmpty then none else some v

/-- The two histogram sets built from the message table (`buildHistograms`):
one global, one per segment-tag value (`Map.get` embedded as a partial map). -/
structure Histograms where
  global : Histogram
  segments : String → Option Histogram

/-- The module-level `histogramCache` cell. -/
structure HistogramCache where
  data : Histograms
  fetchedAt : ℤ

/-- `getHistograms`: serve the cache while it is fresher than the 60 s TTL, else
rebuild (the rebuild result `built` is an input — its construction is a database
read) and refill the cache. -/
def getHistograms (nowMs : ℤ) (cache : Option HistogramCache) (built : Histograms) :
    Histograms × Option HistogramCache :=
  match cache with
  | some c =>
    if nowMs - c.fetchedAt < HISTOGRAM_CACHE_TTL_MS then (c.data, some c)
    else (built, some { data := built, fetchedAt := nowMs })
  | none => (built, some { data := built, fetchedAt := nowMs })

/-- The contact fields selected by `recommendSendTime`.  `timezone` is the
fixed-offset embedding of the stored IANA name (see `getNextDateForHour`). -/
structure OptimizerContact where
  id : String
  status : ContactStatus
  tags : List String
  timezone : Option ℤ
  lastMessageSentAt : Option ℤ

/-- `OptimizerRecommendation` from src/lib/optimizer.ts. -/
structure OptimizerRecommendation where
  recommendedHour : Option ℕ
  recommendedAt : Option ℤ
  score : ℚ
  baselineScore : ℚ
  reason : String
  throttled : Bool
  deriving DecidableEq, Repr

/-- One `prisma.optimizerDecision.create` audit row (rationale JSON flattened). -/
structure OptimizerDecision where
  contactId : String
  recommendedHour : ℕ
  score : ℚ
  baselineScore : ℚ
  segment : String
  usedSegmentHistogram : Bool
  throttled : Bool
  recommendedAtField : Option ℤ

/-- Inputs of one `recommendSendTime` call: the contact table, the histogram
rebuild result, the cache cell and the `Date.now()` clock. -/
structure OptimizerEnv where
  contacts : String → Option OptimizerContact
  builtHistograms : Histograms
  cache : Option HistogramCache
  nowMs : ℤ

/-- Outputs of one `recommendSendTime` call: the returned (or thrown) value, how
often `getHistograms()` was consulted, the cache cell afterwards, and the audit
rows created. -/
structure RecommendOutcome where
  result : Except String OptimizerRecommendation
  histogramReads : ℕ
  cacheAfter : Option HistogramCache
  decisions : List OptimizerDecision

/-- `recommendSendTime` from src/lib/optimizer.ts, in the order of the source:
contact lookup (throw "Contact not found"), inactive early-return, histogram
fetch, segment-histogram selection (used only if it has at least one send),
best-hour pick, next-occurrence conversion, 24 h cooldown (throttle flag and
recomputation from `earliest` when the chosen instant lands before it),
rationale string, decision audit row, final recommendation. -/
def recommendSendTime (env : OptimizerEnv) (contactId : String) (referenceDate : ℤ) :
    RecommendOutcome :=
  match env.contacts contactId with
  | none =>
    { result := Except.error "Contact not found"
      histogramReads := 0
      cacheAfter := env.cache
      decisions := [] }
  | some contact =>
    if contact.status ≠ ContactStatus.ACTIVE then
      { result := Except.ok
          { recommendedHour := none, recommendedAt := none, score := 0, baselineScore := 0,
            reason := "Contact not active", throttled := false }
        histogramReads := 0
        cacheAfter := env.cache
        decisions := [] }
    else
      let fetched := getHistograms env.nowMs env.cache env.builtHistograms
      let histograms := fetched.1
      let segmentRaw := getSegmentTag contact.tags
      let segmentT := truthyString segmentRaw
      let segmentHistogram : Option Histogram :=
        match segmentT with
        | some s => histograms.segments s
        | none => none
      let segmentHasData : Bool :=
        match segmentHistogram with
        | some h => h.sends.any (fun value => 0 < value)
        | none => false
      let histogramToUse :=
        if segmentHasData then segmentHistogram.getD histograms.global else histograms.global
      let best := pickBestHour histogramToUse histograms.global
      let rec0 := getNextDateForHour referenceDate best.hour contact.timezone
      let throttledAndAt : Bool × ℤ :=
        match contact.lastMessageSentAt with
        | none => (false, rec0)
        | some last =>
          let earliest := last + ONE_DAY_MS
          ((decide (referenceDate < earliest)),
            if rec0 < earliest then getNextDateForHour earliest best.hour contact.timezone
            else rec0)
      let throttled := throttledAndAt.1
      let recommendedAt := throttledAndAt.2
      let rationaleBase :=
        match segmentT with
        | some s => "Segment-based recommendation (" ++ s ++ ")"
        | none => "Global recommendation"
      let rationale :=
        if throttled then rationaleBase ++ " • throttled 24h cooldown" else rationaleBase
      { result := Except.ok
          { recommendedHour := some best.hour, recommendedAt := some recommendedAt,
            score := best.score, baselineScore := best.baseline,
            reason := rationale, throttled := throttled }
        histogramReads := 1
        cacheAfter := fetched.2
        decisions :=
          [{ contactId := contact.id, recommendedHour := best.hour, score := best.score,
             baselineScore := best.baseline, segment := segmentRaw.getD "global",
             usedSegmentHistogram := segmentHasData, throttled := throttled,
             recommendedAtField := some recommendedAt }] }

/-- Claim C7: the recommendation fails (with the "Contact not found" error)
exactly when the contact id does not resolve, and an existing non-ACTIVE contact
yields the zero recommendation (hour = null, score = 0) with no histogram read
and the histogram cache untouched. -/
theorem C7_notfound_and_inactive_recommendation (env : OptimizerEnv) (contactId : String)
    (referenceDate : ℤ) :
    ((∃ e, (recommendSendTime env contactId referenceDate).result = Except.error e) ↔
      env.contacts contactId = none) ∧
    (∀ contact, env.contacts contactId = some contact →
      contact.status ≠ ContactStatus.ACTIVE →
      (recommendSendTime env contactId referenceDate).result = Except.ok
        { recommendedHour := none, recommendedAt := none, score := 0, baselineScore := 0,
          reason := "Contact not active", throttled := false } ∧
      (recommendSendTime env contactId referenceDate).histogramReads = 0 ∧
      (recommendSendTime env contactId referenceDate).cacheAfter = env.cache) := by
  cases hc : env.contacts contactId with
  | none =>
    refine ⟨?_, ?_⟩
    · simp [recommendSendTime, hc]
    · intro contact heq
      simp [hc] at heq
  | some c =>
    refine ⟨?_, ?_⟩
    · by_cases hst : c.status = ContactStatus.ACTIVE <;>
        simp [recommendSendTime, hc, hst]
    · intro contact heq hst
      injection heq with heq
      subst heq
      simp [recommendSendTime, hc, hst]

/-- Witness for C7 at a concrete one-contact environment with an inactive
contact. -/
theorem C7_notfound_and_inactive_recommendation_witness :
    (∀ contact,
      (fun i => if i = "c1" then
          some (⟨"c1", ContactStatus.BOUNCED, [], none, none⟩ : OptimizerContact)
        else none) "c1" = some contact →
      contact.status ≠ ContactStatus.ACTIVE →
      (recommendSendTime
        ⟨fun i => if i = "c1" then
            some ⟨"c1", ContactStatus.BOUNCED, [], none, none⟩
          else none,
          ⟨⟨[], []⟩, fun _ => none⟩, none, 0⟩ "c1" 0).result = Except.ok
        { recommendedHour := none, recommendedAt := none, score := 0, baselineScore := 0,
          reason := "Contact not active", throttled := false } ∧
      (recommendSendTime
        ⟨fun i => if i = "c1" then
            some ⟨"c1", ContactStatus.BOUNCED, [], none, none⟩
          else none,
          ⟨⟨[], []⟩, fun _ => none⟩, none, 0⟩ "c1" 0).histogramReads = 0 ∧
      (recommendSendTime
        ⟨fun i => if i = "c1" then
            some ⟨"c1", ContactStatus.BOUNCED, [], none, none⟩
          else none,
          ⟨⟨[], []⟩, fun _ => none⟩, none, 0⟩ "c1" 0).cacheAfter = none) :=
  (C7_notfound_and_inactive_recommendation
    ⟨fun i => if i = "c1" then
        some ⟨"c1", ContactStatus.BOUNCED, [], none, none⟩
      else none,
      ⟨⟨[], []⟩, fun _ => none⟩, none, 0⟩ "c1" 0).2

/-- Day truncation never moves forward. -/
theorem startOfUTCDay_le (t : ℤ) : startOfUTCDay t ≤ t := by
  have hmod := Int.fdiv_add_fmod t msPerDay
  have hnn : 0 ≤ t.fmod msPerDay := Int.fmod_nonneg' t (by norm_num [msPerDay])
  unfold startOfUTCDay
  linarith [hmod]

/-- Day truncation moves back by less than one day. -/
theorem lt_startOfUTCDay_add (t : ℤ) : t - msPerDay < startOfUTCDay t := by
  have hmod := Int.fdiv_add_fmod t msPerDay
  have hlt : t.fmod msPerDay < msPerDay := Int.fmod_lt_of_pos t (by norm_num [msPerDay])
  unfold startOfUTCDay
  linarith [hmod]

/-- Without a timezone, `getNextDateForHour` always lands strictly after its
reference: the candidate is at most one day before the reference's day start,
and the `+ 7 days` branch fires exactly when it is not already strictly later. -/
theorem getNextDateForHour_none_gt (x : ℤ) (h : ℕ) : x < getNextDateForHour x h none := by
  unfold getNextDateForHour
  simp only
  set k : ℤ := ((h : ℤ) / 24 - getUTCDay x + 7) % 7 with hk
  have hknn : 0 ≤ k := Int.emod_nonneg _ (by norm_num)
  have huh : 0 ≤ (h : ℤ) % 24 := Int.emod_nonneg _ (by norm_num)
  have hday : (0 : ℤ) < msPerDay := by norm_num [msPerDay]
  have hshift : x - msPerDay < startOfUTCDay (x + k * msPerDay) := by
    have := lt_startOfUTCDay_add (x + k * msPerDay)
    nlinarith
  have hr0 : x - msPerDay < startOfUTCDay (x + k * msPerDay) + (h : ℤ) % 24 * msPerHour := by
    have hnn : 0 ≤ (h : ℤ) % 24 * msPerHour :=
      mul_nonneg huh (by norm_num [msPerHour])
    linarith
  split
  · have hwk : msPerDay < msPerWeek := by norm_num [msPerDay, msPerWeek]
    linarith
  · omega

/-- The cooldown recomputation, abstracted over the chosen hour: starting from
`reference = T + 1h` with no timezone, the final instant is at least
`T + 24h` in both branches of the `recommendedAt < earliest` check. -/
theorem cooldown_recompute_ge (T : ℤ) (H : ℕ) :
    T + ONE_DAY_MS ≤
      (if getNextDateForHour (T + 3600000) H none < T + ONE_DAY_MS then
        getNextDateForHour (T + ONE_DAY_MS) H none
      else getNextDateForHour (T + 3600000) H none) := by
  split
  · exact le_of_lt (getNextDateForHour_none_gt _ _)
  · rename_i hcond
    omega

/-- Claim C2 as amended: with `lastSend = T` and `reference = T + 1h` the
recommendation is always `throttled = true`; and when the contact's timezone is
unset the chosen instant is at least `T + 24h`.  (With a timezone set the
instant is produced in wall-clock coordinates and can precede `T + 24h` — see
the counterexample.) -/
theorem C2_amended_cooldown_throttle (env : OptimizerEnv) (contactId : String)
    (c : OptimizerContact) (T : ℤ) (hc : env.contacts contactId = some c)
    (hst : c.status = ContactStatus.ACTIVE) (hlast : c.lastMessageSentAt = some T) :
    ∃ r, (recommendSendTime env contactId (T + 3600000)).result = Except.ok r ∧
      r.throttled = true ∧
      (c.timezone = none → ∀ t, r.recommendedAt = some t → T + ONE_DAY_MS ≤ t) := by
  have hthr : T + 3600000 < T + ONE_DAY_MS := by norm_num [ONE_DAY_MS]
  simp only [recommendSendTime, hc, hst, hlast, ne_eq, not_true_eq_false, if_false,
    reduceIte]
  refine ⟨_, rfl, ?_, ?_⟩
  · simp [hthr]
  · intro htz t hat
    rw [htz] at hat
    injection hat with hat
    subst hat
    exact cooldown_recompute_ge T _

/-- The all-zero 168-bucket histogram (no sends recorded anywhere). -/
def zeroHistogram : Histogram :=
  { sends := List.replicate 168 0
    clicks := List.replicate 168 0 }

/-- When every hour scores the same, the strict-improvement scan keeps hour 0. -/
theorem bestScan_const (c : ℚ) (scores : ℕ → ℚ) (hconst : ∀ i, scores i = c) (n : ℕ) :
    bestScan scores n = (0, c) := by
  induction n with
  | zero => simp [bestScan, hconst 0]
  | succ m ih =>
    rw [bestScan, ih]
    simp [hconst m]

set_option maxRecDepth 10000 in
/-- Every hour of the all-zero histogram scores the default prior 0.05. -/
theorem hourScore_zeroHistogram (i : ℕ) : hourScore zeroHistogram i = 1 / 20 := by
  have hs : zeroHistogram.sends.getD i 0 = 0 :=
    getD_zero_of_all_zero _ (by simp [zeroHistogram]) i
  have hcl : zeroHistogram.clicks.getD i 0 = 0 :=
    getD_zero_of_all_zero _ (by simp [zeroHistogram]) i
  have hp : computePrior zeroHistogram = 1 / 20 := by
    simp [computePrior, zeroHistogram]
  show ((zeroHistogram.clicks.getD i 0 : ℚ) + SMOOTHING_ALPHA * computePrior zeroHistogram) /
      ((zeroHistogram.sends.getD i 0 : ℚ) + SMOOTHING_ALPHA) = 1 / 20
  rw [hs, hcl, hp]
  norm_num [SMOOTHING_ALPHA]

/-- On the all-zero histogram the scan picks hour 0 with score and baseline
0.05. -/
theorem pickBestHour_zeroHistogram :
    pickBestHour zeroHistogram zeroHistogram = ⟨0, 1 / 20, 1 / 20⟩ := by
  have hbs := bestScan_const (1 / 20) (hourScore zeroHistogram) hourScore_zeroHistogram
    HOURS_PER_WEEK
  have hb : scoreHistogram 0 zeroHistogram (computePrior zeroHistogram) = 1 / 20 :=
    hourScore_zeroHistogram 0
  simp only [pickBestHour]
  rw [hbs]
  simp [hb]

/-- The contact of the C2 counterexample: ACTIVE, timezone Etc/GMT+4 (a fixed
UTC-4 IANA zone, offset -4 h), last send T = 784800000 ms (a Saturday
02:00 UTC). -/
def c2Contact : OptimizerContact :=
  { id := "c1"
    status := ContactStatus.ACTIVE
    tags := []
    timezone := some (-14400000)
    lastMessageSentAt := some 784800000 }

/-- Environment of the C2 counterexample: only `c2Contact`, empty message
history (all-zero global histogram, no segment histograms), cold cache. -/
def c2Env : OptimizerEnv :=
  { contacts := fun _ => some c2Contact
    builtHistograms := { global := zeroHistogram, segments := fun _ => none }
    cache := none
    nowMs := 0 }

/-- Counterexample to claim C2: for this existing ACTIVE contact with
`lastSend = T = 784800000` and `reference = T + 1h`, the recommendation is
throttled but the chosen instant 864000000 (the wall-clock next Sunday 00:00
re-interpreted as UTC) is strictly BEFORE `T + 24h = 871200000`, because the
timezone branch of `getNextDateForHour` never converts the wall clock back to
UTC. -/
theorem C2_counterexample_timezone_beats_cooldown :
    c2Env.contacts "c1" = some c2Contact ∧
    c2Contact.status = ContactStatus.ACTIVE ∧
    c2Contact.lastMessageSentAt = some 784800000 ∧
    ∃ r, (recommendSendTime c2Env "c1" (784800000 + 3600000)).result = Except.ok r ∧
      r.throttled = true ∧
      r.recommendedAt = some 864000000 ∧
      (864000000 : ℤ) < 784800000 + ONE_DAY_MS := by
  have e1 : getNextDateForHour 788400000 0 (some (-14400000)) = 864000000 := by decide
  have e2 : getNextDateForHour 871200000 0 (some (-14400000)) = 864000000 := by decide
  refine ⟨rfl, rfl, rfl, ?_⟩
  simp [recommendSendTime, c2Env, c2Contact, getSegmentTag, truthyString, getHistograms,
    pickBestHour_zeroHistogram, ONE_DAY_MS, e1, e2]

/-- Witness applying the amended C2 at a concrete timezone-free environment. -/
theorem C2_amended_cooldown_throttle_witness :
    (⟨fun _ => some ⟨"c9", ContactStatus.ACTIVE, [], none, some 0⟩,
        ⟨zeroHistogram, fun _ => none⟩, none, 0⟩ : OptimizerEnv).contacts "c9" =
      some ⟨"c9", ContactStatus.ACTIVE, [], none, some 0⟩ ∧
    (⟨"c9", ContactStatus.ACTIVE, [], none, some 0⟩ : OptimizerContact).status =
      ContactStatus.ACTIVE ∧
    (⟨"c9", ContactStatus.ACTIVE, [], none, some 0⟩ : OptimizerContact).lastMessageSentAt =
      some 0 ∧
    ∃ r, (recommendSendTime
        ⟨fun _ => some ⟨"c9", ContactStatus.ACTIVE, [], none, some 0⟩,
          ⟨zeroHistogram, fun _ => none⟩, none, 0⟩ "c9" (0 + 3600000)).result =
        Except.ok r ∧
      r.throttled = true ∧
      ((⟨"c9", ContactStatus.ACTIVE, [], none, some 0⟩ : OptimizerContact).timezone = none →
        ∀ t, r.recommendedAt = some t → (0 : ℤ) + ONE_DAY_MS ≤ t) :=
  ⟨rfl, rfl, rfl,
    C2_amended_cooldown_throttle
      ⟨fun _ => some ⟨"c9", ContactStatus.ACTIVE, [], none, some 0⟩,
        ⟨zeroHistogram, fun _ => none⟩, none, 0⟩ "c9"
      ⟨"c9", ContactStatus.ACTIVE, [], none, some 0⟩ 0 rfl rfl rfl⟩

/-! ## Flow Execution Engine — src/lib/flows.ts -/

def SCHEDULE_THRESHOLD_MS : ℤ := 5 * 60 * 1000

/-- One `FlowStep` row.  The JSON `config` is narrowed to the two fields the
engine reads: `configMinutes` is `some v` when the config object carries a
finite-number `minutes` key (the guard of `extractDelayMinutes`), and
`configSegmentId` is `some s` when it carries a nonempty-string `segmentId` key
(the guard of `extractSegmentId`). -/
structure FlowStep where
  order : ℤ
  stepType : FlowStepType
  configMinutes : Option ℚ
  configSegmentId : Option String
  deriving DecidableEq, Repr

/-- The flow fields `processSingleRun` and `executeSendStep` read. -/
structure Flow where
  delayMinutes : Option ℚ
  segmentId : Option String
  useOptimizer : Bool
  templateId : String
  templateSubject : String
  templateHtml : String
  steps : List FlowStep
  deriving DecidableEq, Repr

/-- The contact fields loaded with a run. -/
structure RunContact where
  id : String
  email : Option String
  status : ContactStatus
  tags : List String
  deriving DecidableEq, Repr

/-- A `FlowRun` row (fields the engine reads and writes). -/
structure FlowRun where
  id : String
  status : FlowRunStatus
  nextStepOrder : ℤ
  scheduledAt : ℤ
  completedAt : Option ℤ
  cancelledReason : Option String
  deriving DecidableEq, Repr

/-- A `Message` row as created by `executeSendStep`. -/
structure MessageRow where
  contactId : String
  templateId : String
  status : MessageStatus
  scheduledSendAt : Option ℤ
  sentAt : Option ℤ
  resendMessageId : Option String
  flowRunId : String
  deriving DecidableEq, Repr

/-- `extractDelayMinutes`: the config `minutes` when present (and a finite
number), else the flow's fixed delay, else 0. -/
def extractDelayMinutes (step : FlowStep) (fallback : Option ℚ) : ℚ :=
  match step.configMinutes with
  | some value => value
  | none => fallback.getD 0

/-- `extractSegmentId`: the config `segmentId` when present (a nonempty
string), else the flow's segment id. -/
def extractSegmentId (step : FlowStep) (fallback : Option String) : Option String :=
  match step.configSegmentId with
  | some value => some value
  | none => fallback

/-- `getNextOrder`: the smallest step order strictly greater than `current`
(the source filters, sorts ascending and takes the first element, i.e. the
minimum), or `current + 1` when no such order exists. -/
def getNextOrder (current : ℤ) (steps : List FlowStep) : ℤ :=
  let candidates := (steps.map (fun step => step.order)).filter (fun order => current < order)
  match candidates.min? with
  | none => current + 1
  | some m => m

/-- JS `!contact.email`: both `null` and the empty string are falsy. -/
def emailFalsy (email : Option String) : Bool :=
  match email with
  | none => true
  | some s => s.isEmpty

/-- The string interpolation `` `Contact status is ${contact.status}` `` uses
the Prisma enum value name. -/
def statusName : ContactStatus → String
  | ContactStatus.ACTIVE => "ACTIVE"
  | ContactStatus.BOUNCED => "BOUNCED"
  | ContactStatus.COMPLAINED => "COMPLAINED"
  | ContactStatus.SUPPRESSED => "SUPPRESSED"

/-- ECMAScript time-value truncation toward zero (`new Date(ms)` applies
`ToIntegerOrInfinity` to a fractional millisecond argument). -/
def jsDateValue (q : ℚ) : ℤ := if 0 ≤ q then ⌊q⌋ else ⌈q⌉

/-- Collaborator outcomes consumed while processing one run, passed as oracles
because the claims quantify over all of them: segment membership
(`prisma.segmentMembership.findFirst` as a Bool of segment id and contact id),
the optimizer call outcome (`Except.error` for a thrown recommendation error —
caught and treated as no recommendation — with payload
`recommendation.recommendedAt`), the mail transport outcome (message id or
thrown error message), and the `new Date()` clock read on send success. -/
structure FlowEnv where
  membership : String → String → Bool
  optimizerResult : Except String (Option ℤ)
  sendResult : Except String String
  sentAtClock : ℤ

/-- `RunResult` from src/lib/flows.ts. -/
structure RunResult where
  completed : Bool
  rescheduled : Bool
  cancelled : Bool
  deriving DecidableEq, Repr

/-- Effects of `executeSendStep`: the updated run row, message rows created,
the contact's `lastMessageSentAt` update if any, and the propagated error
(`some message` when the send threw). -/
structure SendEffects where
  run : FlowRun
  messages : List MessageRow
  lastSentUpdate : Option ℤ
  thrown : Option String
  deriving DecidableEq, Repr

/-- `executeSendStep` from src/lib/flows.ts: cancel on missing email or
non-ACTIVE contact; consult the optimizer when enabled, swallowing its errors;
schedule a SCHEDULED message when the recommended instant is more than 5 min
out; otherwise dispatch now — SENT message, contact last-send update and
COMPLETED run on success, FAILED run and a rethrown error on failure. -/
def executeSendStep (env : FlowEnv) (flow : Flow) (contact : RunContact) (run : FlowRun)
    (now : ℤ) : SendEffects :=
  if emailFalsy contact.email then
    { run :=
        { run with
          status := FlowRunStatus.CANCELLED
          cancelledReason := some "Contact missing email"
          completedAt := some now }
      messages := []
      lastSentUpdate := none
      thrown := none }
  else if contact.status ≠ ContactStatus.ACTIVE then
    { run :=
        { run with
          status := FlowRunStatus.CANCELLED
          cancelledReason := some ("Contact status is " ++ statusName contact.status)
          completedAt := some now }
      messages := []
      lastSentUpdate := none
      thrown := none }
  else
    let recommendedAt : Option ℤ :=
      if flow.useOptimizer then
        match env.optimizerResult with
        | Except.ok r => r
        | Except.error _ => none
      else none
    let sendNow : SendEffects :=
      match env.sendResult with
      | Except.ok messageId =>
        { run :=
            { run with
              status := FlowRunStatus.COMPLETED
              completedAt := some now
              nextStepOrder := getNextOrder run.nextStepOrder flow.steps }
          messages :=
            [{ contactId := contact.id
               templateId := flow.templateId
               status := MessageStatus.SENT
               scheduledSendAt := none
               sentAt := some env.sentAtClock
               resendMessageId := some messageId
               flowRunId := run.id }]
          lastSentUpdate := some env.sentAtClock
          thrown := none }
      | Except.error e =>
        { run :=
            { run with
              status := FlowRunStatus.FAILED
              cancelledReason := some e }
          messages := []
          lastSentUpdate := none
          thrown := some e }
    match recommendedAt with
    | some t =>
      if SCHEDULE_THRESHOLD_MS < t - now then
        { run :=
            { run with
              status := FlowRunStatus.COMPLETED
              completedAt := some now
              nextStepOrder := getNextOrder run.nextStepOrder flow.steps }
          messages :=
            [{ contactId := contact.id
               templateId := flow.templateId
               status := MessageStatus.SCHEDULED
               scheduledSendAt := some t
               sentAt := none
               resendMessageId := none
               flowRunId := run.id }]
          lastSentUpdate := none
          thrown := none }
      else sendNow
    | none => sendNow

/-- Observable effects of one run's processing in a tick: final run row,
messages created, contact update, propagated error, and the `RunResult` the
batch loop receives (`none` when the error path was taken — the batch then
counts the run as failed). -/
structure TickOutcome where
  run : FlowRun
  messages : List MessageRow
  lastSentUpdate : Option ℤ
  thrown : Option String
  result : Option RunResult
  deriving DecidableEq, Repr

/-- Packaging of the send effects as the tick outcome: `processSingleRun`
returns `{completed: true}` whenever `executeSendStep` returns normally, and
propagates the exception otherwise. -/
def sendTickOutcome (effects : SendEffects) : TickOutcome :=
  { run := effects.run
    messages := effects.messages
    lastSentUpdate := effects.lastSentUpdate
    thrown := effects.thrown
    result := if effects.thrown = none then some ⟨true, false, false⟩ else none }

/-- The `while (true)` step walk of `processSingleRun`, with explicit fuel to
make the recursion structural (`none` = fuel exhausted; the C10 theorem shows
the canonical fuel always suffices).  Branches in source order: ran off the end
→ COMPLETED; DELAY → advance without yielding when minutes ≤ 0, else WAITING
one tick; SEGMENT_FILTER → cancel on missing membership, else advance;
SEND_TEMPLATE → the send sub-protocol always ends the tick; any other type
(TRIGGER) → advance. -/
def processRunWalk (env : FlowEnv) (flow : Flow) (contact : RunContact) (run : FlowRun)
    (now : ℤ) : ℕ → ℤ → Option TickOutcome
  | 0, _ => none
  | fuel + 1, pointer =>
    match flow.steps.find? (fun candidate => candidate.order = pointer) with
    | none =>
      some
        { run :=
            { run with
              status := FlowRunStatus.COMPLETED
              completedAt := some now
              nextStepOrder := pointer }
          messages := []
          lastSentUpdate := none
          thrown := none
          result := some ⟨true, false, false⟩ }
    | some step =>
      match step.stepType with
      | FlowStepType.DELAY =>
        let minutes := extractDelayMinutes step flow.delayMinutes
        if minutes ≤ 0 then
          processRunWalk env flow contact run now fuel (getNextOrder pointer flow.steps)
        else
          some
            { run :=
                { run with
                  status := FlowRunStatus.WAITING
                  scheduledAt := jsDateValue ((now : ℚ) + minutes * 60 * 1000)
                  nextStepOrder := getNextOrder pointer flow.steps }
              messages := []
              lastSentUpdate := none
              thrown := none
              result := some ⟨false, true, false⟩ }
      | FlowStepType.SEGMENT_FILTER =>
        match extractSegmentId step flow.segmentId with
        | some segmentId =>
          if env.membership segmentId contact.id then
            processRunWalk env flow contact run now fuel (getNextOrder pointer flow.steps)
          else
            some
              { run :=
                  { run with
                    status := FlowRunStatus.CANCELLED
                    cancelledReason := some "Contact no longer in segment"
                    completedAt := some now
                    nextStepOrder := pointer }
                messages := []
                lastSentUpdate := none
                thrown := none
                result := some ⟨false, false, true⟩ }
        | none =>
          processRunWalk env flow contact run now fuel (getNextOrder pointer flow.steps)
      | FlowStepType.SEND_TEMPLATE =>
        some (sendTickOutcome (executeSendStep env flow contact run now))
      | FlowStepType.TRIGGER =>
        processRunWalk env flow contact run now fuel (getNextOrder pointer flow.steps)

/-- The number of distinct step orders of a step list. -/
def distinctOrderCount (steps : List FlowStep) : ℕ :=
  ((steps.map (fun step => step.order)).toFinset).card

/-- `processSingleRun`: the walk started at the run's pointer, with the fuel
the C10 termination bound shows sufficient (distinct step orders + 1). -/
def processSingleRun (env : FlowEnv) (flow : Flow) (contact : RunContact) (run : FlowRun)
    (now : ℤ) : Option TickOutcome :=
  processRunWalk env flow contact run now (distinctOrderCount flow.steps + 1) run.nextStepOrder

/-- `getNextOrder` always returns an order strictly greater than its argument:
the filtered candidates all exceed `current`, and the fallback is `current + 1`. -/
theorem getNextOrder_gt (current : ℤ) (steps : List FlowStep) :
    current < getNextOrder current steps := by
  unfold getNextOrder
  simp only
  split
  · omega
  · rename_i m hmin
    have hmem := List.min?_mem (fun a b : ℤ => min_choice a b) hmin
    have hm := List.mem_filter.mp hmem
    simpa using hm.2

/-- The walk's termination measure: how many distinct step orders are at or
beyond the pointer. -/
def ordersGE (steps : List FlowStep) (pointer : ℤ) : ℕ :=
  (((steps.map (fun step => step.order)).toFinset).filter (fun o => pointer ≤ o)).card

/-- Advancing the pointer from a step that exists strictly shrinks the measure:
the pointer's own order leaves the at-or-beyond set. -/
theorem ordersGE_decreases (steps : List FlowStep) (pointer : ℤ)
    (hmem : pointer ∈ steps.map (fun step => step.order)) :
    ordersGE steps (getNextOrder pointer steps) < ordersGE steps pointer := by
  have hg : pointer < getNextOrder pointer steps := getNextOrder_gt pointer steps
  apply Finset.card_lt_card
  have hsubset :
      ((steps.map (fun step => step.order)).toFinset).filter
          (fun o => getNextOrder pointer steps ≤ o) ⊆
        ((steps.map (fun step => step.order)).toFinset).filter (fun o => pointer ≤ o) := by
    intro o ho
    simp only [Finset.mem_filter] at ho ⊢
    exact ⟨ho.1, le_trans (le_of_lt hg) ho.2⟩
  rw [Finset.ssubset_iff_of_subset hsubset]
  refine ⟨pointer, ?_, ?_⟩
  · simp [List.mem_toFinset.mpr hmem]
  · simp only [Finset.mem_filter]
    intro hcontra
    omega

/-- Fuel above the measure always suffices for the walk to return. -/
theorem processRunWalk_isSome (env : FlowEnv) (flow : Flow) (contact : RunContact)
    (run : FlowRun) (now : ℤ) :
    ∀ fuel pointer, ordersGE flow.steps pointer < fuel →
      (processRunWalk env flow contact run now fuel pointer).isSome := by
  intro fuel
  induction fuel with
  | zero =>
    intro pointer h
    omega
  | succ f ih =>
    intro pointer h
    rw [processRunWalk]
    split
    · simp
    · rename_i step hfind
      have hpred := List.find?_some hfind
      have hmem0 := List.mem_of_find?_eq_some hfind
      have horder : step.order = pointer := by simpa using hpred
      have hmem : pointer ∈ flow.steps.map (fun s => s.order) :=
        List.mem_map.mpr ⟨step, hmem0, horder⟩
      have hdec := ordersGE_decreases flow.steps pointer hmem
      have hnext : ordersGE flow.steps (getNextOrder pointer flow.steps) < f := by omega
      split
      · -- DELAY
        by_cases hmin : extractDelayMinutes step flow.delayMinutes ≤ 0
        · simpa [hmin] using ih _ hnext
        · simp [hmin]
      · -- SEGMENT_FILTER
        split
        · rename_i segmentId hseg
          by_cases hmemb : env.membership segmentId contact.id
          · simpa [hmemb] using ih _ hnext
          · simp [hmemb]
        · exact ih _ hnext
      · -- SEND_TEMPLATE
        simp
      · -- TRIGGER
        exact ih _ hnext

/-- Claim C10 (implicit): `getNextOrder` strictly increases the pointer, so the
per-run walk with fuel `distinct step orders + 1` always returns within the
tick (the canonical `processSingleRun` runs with exactly that fuel). -/
theorem C10_step_walk_terminates (env : FlowEnv) (flow : Flow) (contact : RunContact)
    (run : FlowRun) (now : ℤ) :
    (∀ (current : ℤ) (steps : List FlowStep), current < getNextOrder current steps) ∧
    (processRunWalk env flow contact run now (distinctOrderCount flow.steps + 1)
      run.nextStepOrder).isSome ∧
    (processSingleRun env flow contact run now).isSome := by
  have hbound : ordersGE flow.steps run.nextStepOrder ≤ distinctOrderCount flow.steps :=
    Finset.card_filter_le _ _
  have hsome := processRunWalk_isSome env flow contact run now
    (distinctOrderCount flow.steps + 1) run.nextStepOrder (by omega)
  exact ⟨fun current steps => getNextOrder_gt current steps, hsome, hsome⟩

/-- `new Date(n)` of an integer millisecond value is that value. -/
theorem jsDateValue_intCast (n : ℤ) : jsDateValue (n : ℚ) = n := by
  unfold jsDateValue
  split
  · exact Int.floor_intCast n
  · exact Int.ceil_intCast n

/-- The flow of the C5 scenario: steps [TRIGGER(order 1), DELAY(order 2,
minutes 45), SEND_TEMPLATE(order 3)]. -/
def c5Flow : Flow :=
  { delayMinutes := none
    segmentId := none
    useOptimizer := true
    templateId := "template-1"
    templateSubject := "subject"
    templateHtml := "<p>html</p>"
    steps := [⟨1, FlowStepType.TRIGGER, none, none⟩,
      ⟨2, FlowStepType.DELAY, some 45, none⟩,
      ⟨3, FlowStepType.SEND_TEMPLATE, none, none⟩] }

/-- Claim C5: a DELAY step with resolved minutes ≤ 0 (or absent, which resolves
to 0) advances the pointer and continues the walk in the same tick with no
WAITING write; positive minutes yield WAITING with `scheduledAt = now + minutes`
and pointer at the next step, ending the tick; and in the concrete
[TRIGGER, DELAY(45), SEND_TEMPLATE] scenario with the pointer on the DELAY step
a tick at `now` leaves the run WAITING, `scheduledAt = now + 45 min`, pointer =
the SEND_TEMPLATE step's order 3. -/
theorem C5_delay_step_behavior :
    (∀ (env : FlowEnv) (flow : Flow) (contact : RunContact) (run : FlowRun) (now : ℤ)
      (fuel : ℕ) (pointer : ℤ) (step : FlowStep),
      flow.steps.find? (fun candidate => candidate.order = pointer) = some step →
      step.stepType = FlowStepType.DELAY →
      extractDelayMinutes step flow.delayMinutes ≤ 0 →
      processRunWalk env flow contact run now (fuel + 1) pointer =
        processRunWalk env flow contact run now fuel (getNextOrder pointer flow.steps)) ∧
    (∀ (env : FlowEnv) (flow : Flow) (contact : RunContact) (run : FlowRun) (now : ℤ)
      (fuel : ℕ) (pointer : ℤ) (step : FlowStep),
      flow.steps.find? (fun candidate => candidate.order = pointer) = some step →
      step.stepType = FlowStepType.DELAY →
      ¬ extractDelayMinutes step flow.delayMinutes ≤ 0 →
      processRunWalk env flow contact run now (fuel + 1) pointer =
        some
          { run :=
              { run with
                status := FlowRunStatus.WAITING
                scheduledAt := jsDateValue
                  ((now : ℚ) + extractDelayMinutes step flow.delayMinutes * 60 * 1000)
                nextStepOrder := getNextOrder pointer flow.steps }
            messages := []
            lastSentUpdate := none
            thrown := none
            result := some ⟨false, true, false⟩ }) ∧
    (∀ (env : FlowEnv) (contact : RunContact) (now : ℤ) (rid : String)
      (st : FlowRunStatus) (sched : ℤ) (ca : Option ℤ) (cr : Option String),
      processSingleRun env c5Flow contact ⟨rid, st, 2, sched, ca, cr⟩ now =
        some
          { run := ⟨rid, FlowRunStatus.WAITING, 3, now + 2700000, ca, cr⟩
            messages := []
            lastSentUpdate := none
            thrown := none
            result := some ⟨false, true, false⟩ }) := by
  refine ⟨?_, ?_, ?_⟩
  · intro env flow contact run now fuel pointer step hfind htype hmin
    simp only [processRunWalk, hfind, htype]
    rw [if_pos hmin]
  · intro env flow contact run now fuel pointer step hfind htype hmin
    simp only [processRunWalk, hfind, htype]
    rw [if_neg hmin]
  · intro env contact now rid st sched ca cr
    have hfind : c5Flow.steps.find? (fun candidate => candidate.order = 2) =
        some ⟨2, FlowStepType.DELAY, some 45, none⟩ := by
      decide
    have hnext : getNextOrder 2 c5Flow.steps = 3 := by decide
    have hcount : distinctOrderCount c5Flow.steps = 3 := by decide
    have hsched : jsDateValue ((now : ℚ) + (45 : ℚ) * 60 * 1000) = now + 2700000 := by
      have hcast : ((now : ℚ) + (45 : ℚ) * 60 * 1000) = ((now + 2700000 : ℤ) : ℚ) := by
        push_cast
        ring
      rw [hcast, jsDateValue_intCast]
    rw [processSingleRun, hcount]
    simp only [processRunWalk, hfind]
    rw [if_neg (by norm_num [extractDelayMinutes, c5Flow])]
    simp only [extractDelayMinutes, hnext, hsched]

/-- Witness running the C5 scenario at concrete values. -/
theorem C5_delay_step_behavior_witness :
    processSingleRun ⟨fun _ _ => true, Except.ok none, Except.ok "m1", 0⟩ c5Flow
      ⟨"c1", some "demo@resend.dev", ContactStatus.ACTIVE, []⟩
      ⟨"r1", FlowRunStatus.PENDING, 2, 0, none, none⟩ 0 =
      some
        { run := ⟨"r1", FlowRunStatus.WAITING, 3, 2700000, none, none⟩
          messages := []
          lastSentUpdate := none
          thrown := none
          result := some ⟨false, true, false⟩ } := by
  have := C5_delay_step_behavior.2.2 ⟨fun _ _ => true, Except.ok none, Except.ok "m1", 0⟩
    ⟨"c1", some "demo@resend.dev", ContactStatus.ACTIVE, []⟩ 0 "r1" FlowRunStatus.PENDING 0
    none none
  simpa using this

/-- Claim C1 as amended: a SEND_TEMPLATE step always ends the tick for its run
with the send sub-protocol's outcome, leaving the run COMPLETED, CANCELLED or
FAILED — CANCELLED exactly when the contact has no email or is not ACTIVE; the
batch counts the run as completed whenever the send did not throw (including
the CANCELLED outcome) and as failed when it threw. -/
theorem C1_amended_send_step_end_of_tick (env : FlowEnv) (flow : Flow) (contact : RunContact)
    (run : FlowRun) (now : ℤ) (step : FlowStep)
    (hfind : flow.steps.find? (fun candidate => candidate.order = run.nextStepOrder) =
      some step)
    (htype : step.stepType = FlowStepType.SEND_TEMPLATE) :
    processSingleRun env flow contact run now =
      some (sendTickOutcome (executeSendStep env flow contact run now)) ∧
    ((executeSendStep env flow contact run now).run.status = FlowRunStatus.COMPLETED ∨
      (executeSendStep env flow contact run now).run.status = FlowRunStatus.CANCELLED ∨
      (executeSendStep env flow contact run now).run.status = FlowRunStatus.FAILED) ∧
    ((executeSendStep env flow contact run now).run.status = FlowRunStatus.CANCELLED ↔
      (emailFalsy contact.email = true ∨ contact.status ≠ ContactStatus.ACTIVE)) ∧
    ((executeSendStep env flow contact run now).thrown = none →
      (sendTickOutcome (executeSendStep env flow contact run now)).result =
        some ⟨true, false, false⟩) ∧
    (∀ e, (executeSendStep env flow contact run now).thrown = some e →
      (executeSendStep env flow contact run now).run.status = FlowRunStatus.FAILED ∧
      (sendTickOutcome (executeSendStep env flow contact run now)).result = none) := by
  have hE : ((executeSendStep env flow contact run now).run.status = FlowRunStatus.COMPLETED ∨
      (executeSendStep env flow contact run now).run.status = FlowRunStatus.CANCELLED ∨
      (executeSendStep env flow contact run now).run.status = FlowRunStatus.FAILED) ∧
      ((executeSendStep env flow contact run now).run.status = FlowRunStatus.CANCELLED ↔
        (emailFalsy contact.email = true ∨ contact.status ≠ ContactStatus.ACTIVE)) ∧
      ((executeSendStep env flow contact run now).thrown = none →
        (sendTickOutcome (executeSendStep env flow contact run now)).result =
          some ⟨true, false, false⟩) ∧
      (∀ e, (executeSendStep env flow contact run now).thrown = some e →
        (executeSendStep env flow contact run now).run.status = FlowRunStatus.FAILED ∧
        (sendTickOutcome (executeSendStep env flow contact run now)).result = none) := by
    by_cases he : emailFalsy contact.email <;>
    by_cases hst : contact.status = ContactStatus.ACTIVE <;>
    simp only [executeSendStep, he, hst, Bool.false_eq_true, if_true, if_false, reduceIte,
      ne_eq, not_true_eq_false, not_false_eq_true] <;>
    (repeat' split) <;>
    simp [sendTickOutcome, he, hst]
  refine ⟨?_, hE.1, hE.2.1, hE.2.2.1, hE.2.2.2⟩
  rw [processSingleRun]
  simp only [processRunWalk, hfind, htype]

/-- The single-SEND-step flow of the C1 counterexample. -/
def c1Flow : Flow :=
  { delayMinutes := none
    segmentId := none
    useOptimizer := false
    templateId := "template-1"
    templateSubject := "subject"
    templateHtml := "<p>html</p>"
    steps := [⟨1, FlowStepType.SEND_TEMPLATE, none, none⟩] }

/-- A contact with an email but status BOUNCED. -/
def c1Contact : RunContact :=
  { id := "c1"
    email := some "demo@resend.dev"
    status := ContactStatus.BOUNCED
    tags := [] }

/-- A due run pointing at the SEND_TEMPLATE step. -/
def c1Run : FlowRun :=
  { id := "r1"
    status := FlowRunStatus.PENDING
    nextStepOrder := 1
    scheduledAt := 0
    completedAt := none
    cancelledReason := none }

/-- Collaborators of the C1 counterexample (none of them are reached). -/
def c1Env : FlowEnv :=
  { membership := fun _ _ => true
    optimizerResult := Except.ok none
    sendResult := Except.ok "message-1"
    sentAtClock := 0 }

/-- Counterexample to claim C1: a due run whose current step is SEND_TEMPLATE
but whose contact is BOUNCED ends the tick CANCELLED — not COMPLETED or FAILED —
and the summary result nonetheless reports it as completed. -/
theorem C1_counterexample_send_step_cancelled :
    (c1Flow.steps.find? (fun candidate => candidate.order = c1Run.nextStepOrder) =
      some ⟨1, FlowStepType.SEND_TEMPLATE, none, none⟩) ∧
    processSingleRun c1Env c1Flow c1Contact c1Run 0 =
      some
        { run := ⟨"r1", FlowRunStatus.CANCELLED, 1, 0, some 0,
            some "Contact status is BOUNCED"⟩
          messages := []
          lastSentUpdate := none
          thrown := none
          result := some ⟨true, false, false⟩ } ∧
    ¬(FlowRunStatus.CANCELLED = FlowRunStatus.COMPLETED ∨
      FlowRunStatus.CANCELLED = FlowRunStatus.FAILED) := by
  refine ⟨by decide, by decide, by decide⟩

/-- Witness applying the amended C1 at the concrete BOUNCED-contact run. -/
theorem C1_amended_send_step_end_of_tick_witness :
    processSingleRun c1Env c1Flow c1Contact c1Run 0 =
      some (sendTickOutcome (executeSendStep c1Env c1Flow c1Contact c1Run 0)) ∧
    ((executeSendStep c1Env c1Flow c1Contact c1Run 0).run.status = FlowRunStatus.CANCELLED ↔
      (emailFalsy c1Contact.email = true ∨ c1Contact.status ≠ ContactStatus.ACTIVE)) :=
  ⟨(C1_amended_send_step_end_of_tick c1Env c1Flow c1Contact c1Run 0
      ⟨1, FlowStepType.SEND_TEMPLATE, none, none⟩ (by decide) rfl).1,
    (C1_amended_send_step_end_of_tick c1Env c1Flow c1Contact c1Run 0
      ⟨1, FlowStepType.SEND_TEMPLATE, none, none⟩ (by decide) rfl).2.2.1⟩

/-! ## Hygiene sweep — src/lib/hygiene.ts (`runHygieneSweep`) -/

/-- One contact row as selected by the sweep (`prisma.contact.findMany` with
risk fields and the suppression relation). -/
structure SweepContact where
  id : String
  status : ContactStatus
  tags : List String
  lastEventAt : Option ℤ
  lastMessageSentAt : Option ℤ
  propensity : Option ℚ
  hygieneRiskLevel : Option HygieneRiskLevel
  hygieneScore : Option ℚ
  suppressions : List Suppression
  deriving DecidableEq, Repr

/-- `HygieneSweepOptions` (`now ?? new Date()` resolved into `nowMs`). -/
structure HygieneSweepOptions where
  suppressHighRisk : Option Bool
  limit : Option ℕ
  nowMs : ℤ

/-- `HygieneSweepSummary` from src/lib/hygiene.ts. -/
structure HygieneSweepSummary where
  evaluated : ℕ
  highRisk : ℕ
  mediumRisk : ℕ
  lowRisk : ℕ
  suppressionsCreated : ℕ
  contactsSuppressed : ℕ
  deriving DecidableEq, Repr

/-- One `HygieneEvaluation` audit row. -/
structure HygieneEvaluationRow where
  contactId : String
  riskLevel : HygieneRiskLevel
  score : ℚ
  suppressed : Bool
  reasons : List String
  deriving DecidableEq, Repr

/-- The database state the sweep touches: the contact table (each row carrying
its suppression relation — created Suppression rows are recorded on their
contact) and the evaluation audit table. -/
structure SweepState where
  contacts : List SweepContact
  evaluations : List HygieneEvaluationRow

/-- The projection handed to `computeHygieneScore` inside the sweep loop. -/
def hygieneInputOf (contact : SweepContact) : HygieneComputationInput :=
  { id := contact.id
    status := contact.status
    tags := contact.tags
    lastEventAt := contact.lastEventAt
    lastMessageSentAt := contact.lastMessageSentAt
    propensity := contact.propensity
    suppressions := contact.suppressions }

/-- The risk-field rewrite of the sweep loop: only performed when the tier
changed or the score moved by more than 0.001. -/
def withRiskUpdate (contact : SweepContact) (result : HygieneComputationResult) :
    SweepContact :=
  if contact.hygieneRiskLevel ≠ some result.riskLevel ∨
      1 / 1000 < |contact.hygieneScore.getD 0 - result.score| then
    { contact with
      hygieneRiskLevel := some result.riskLevel
      hygieneScore := some result.score }
  else contact

@[simp]
theorem withRiskUpdate_status (contact : SweepContact) (result : HygieneComputationResult) :
    (withRiskUpdate contact result).status = contact.status := by
  unfold withRiskUpdate
  split <;> rfl

@[simp]
theorem withRiskUpdate_tags (contact : SweepContact) (result : HygieneComputationResult) :
    (withRiskUpdate contact result).tags = contact.tags := by
  unfold withRiskUpdate
  split <;> rfl

@[simp]
theorem withRiskUpdate_suppressions (contact : SweepContact)
    (result : HygieneComputationResult) :
    (withRiskUpdate contact result).suppressions = contact.suppressions := by
  unfold withRiskUpdate
  split <;> rfl

@[simp]
theorem withRiskUpdate_id (contact : SweepContact) (result : HygieneComputationResult) :
    (withRiskUpdate contact result).id = contact.id := by
  unfold withRiskUpdate
  split <;> rfl

/-- Per-contact effects staged by one sweep iteration: the contact row after
all updates, the evaluation row, and the two summary flags. -/
structure SweepContactEffect where
  newContact : SweepContact
  result : HygieneComputationResult
  evaluation : HygieneEvaluationRow
  suppressed : Bool
  createdSuppression : Bool
  deriving DecidableEq, Repr

/-- The body of the sweep's per-contact loop, in source order: score the
contact; stage the evaluation row (`suppressed` there is
`result.shouldSuppress && options.suppressHighRisk !== false`); rewrite the
risk fields only when the tier changed or the score moved by more than 0.001;
then, when the tier is HIGH, suppression is enabled and the contact is not
tagged synthetic: transition the status to SUPPRESSED unless it already is
(counting `contactsSuppressed`), and append one "hygiene-risk" Suppression row
unless one already exists (counting `suppressionsCreated`). -/
def sweepContactStep (suppressHighRisk : Option Bool) (nowMs : ℤ) (contact : SweepContact) :
    SweepContactEffect :=
  let result := computeHygieneScore (hygieneInputOf contact) nowMs
  let evaluation : HygieneEvaluationRow :=
    { contactId := contact.id
      riskLevel := result.riskLevel
      score := result.score
      suppressed := result.shouldSuppress && decide (suppressHighRisk ≠ some false)
      reasons := result.reasons }
  let withRisk : SweepContact := withRiskUpdate contact result
  if result.riskLevel = HygieneRiskLevel.HIGH ∧ suppressHighRisk ≠ some false ∧
      contact.tags.contains "synthetic" = false then
    let afterStatus : SweepContact :=
      if contact.status = ContactStatus.SUPPRESSED then withRisk
      else { withRisk with status := ContactStatus.SUPPRESSED }
    let afterRow : SweepContact :=
      if contact.suppressions.any (fun entry => entry.reason = HYGIENE_SUPPRESSION_REASON) then
        afterStatus
      else
        { afterStatus with
          suppressions := afterStatus.suppressions ++
            [{ reason := HYGIENE_SUPPRESSION_REASON
               source := "system"
               notes := "Auto-suppressed due to hygiene risk" }] }
    { newContact := afterRow
      result := result
      evaluation := evaluation
      suppressed := decide (contact.status ≠ ContactStatus.SUPPRESSED)
      createdSuppression :=
        !(contact.suppressions.any (fun entry => entry.reason = HYGIENE_SUPPRESSION_REASON)) }
  else
    { newContact := withRisk
      result := result
      evaluation := evaluation
      suppressed := false
      createdSuppression := false }

/-- `runHygieneSweep`: take the (optionally limited) batch of contacts, stage
every per-contact effect, apply them transactionally, and return the counters.
The empty-batch early return leaves the state untouched. -/
def runHygieneSweep (options : HygieneSweepOptions) (state : SweepState) :
    SweepState × HygieneSweepSummary :=
  let contacts :=
    match options.limit with
    | some n => state.contacts.take n
    | none => state.contacts
  if contacts.isEmpty then
    (state, ⟨0, 0, 0, 0, 0, 0⟩)
  else
    let effects := contacts.map (sweepContactStep options.suppressHighRisk options.nowMs)
    let rest :=
      match options.limit with
      | some n => state.contacts.drop n
      | none => []
    ({ contacts := effects.map (fun e => e.newContact) ++ rest
       evaluations := state.evaluations ++ effects.map (fun e => e.evaluation) },
      { evaluated := contacts.length
        highRisk := (effects.filter (fun e => e.result.riskLevel = HygieneRiskLevel.HIGH)).length
        mediumRisk :=
          (effects.filter (fun e => e.result.riskLevel = HygieneRiskLevel.MEDIUM)).length
        lowRisk := (effects.filter (fun e => e.result.riskLevel = HygieneRiskLevel.LOW)).length
        suppressionsCreated := (effects.filter (fun e => e.createdSuppression)).length
        contactsSuppressed := (effects.filter (fun e => e.suppressed)).length })

/-- Number of "hygiene-risk" Suppression rows attached to a contact. -/
def countHR (contact : SweepContact) : ℕ :=
  (contact.suppressions.filter (fun s => s.reason = HYGIENE_SUPPRESSION_REASON)).length

/-- The sweep's suppression guard, expressed on the raw row (via the status
characterization of HIGH risk). -/
def sweepApplies (suppressHighRisk : Option Bool) (contact : SweepContact) : Prop :=
  (contact.status = ContactStatus.BOUNCED ∨ contact.status = ContactStatus.COMPLAINED ∨
    contact.status = ContactStatus.SUPPRESSED) ∧
  suppressHighRisk ≠ some false ∧ contact.tags.contains "synthetic" = false

/-- The sweep's suppression guard coincides with `sweepApplies` (via the HIGH
tier characterization). -/
theorem sweepContactStep_guard_iff (o : Option Bool) (n : ℤ) (c : SweepContact) :
    ((computeHygieneScore (hygieneInputOf c) n).riskLevel = HygieneRiskLevel.HIGH ∧
      o ≠ some false ∧ c.tags.contains "synthetic" = false) ↔ sweepApplies o c := by
  unfold sweepApplies
  rw [computeHygieneScore_high_iff]
  simp [hygieneInputOf]

/-- When the guard fails, the iteration leaves status, tags and suppressions
unchanged and stages no suppression side effect. -/
theorem sweepContactStep_not_applies (o : Option Bool) (n : ℤ) (c : SweepContact)
    (h : ¬ sweepApplies o c) :
    (sweepContactStep o n c).newContact.status = c.status ∧
    (sweepContactStep o n c).newContact.tags = c.tags ∧
    (sweepContactStep o n c).newContact.suppressions = c.suppressions ∧
    (sweepContactStep o n c).suppressed = false ∧
    (sweepContactStep o n c).createdSuppression = false := by
  have hg : ¬ ((computeHygieneScore (hygieneInputOf c) n).riskLevel = HygieneRiskLevel.HIGH ∧
      o ≠ some false ∧ c.tags.contains "synthetic" = false) := by
    rw [sweepContactStep_guard_iff]
    exact h
  simp only [sweepContactStep]
  rw [if_neg hg]
  simp

/-- When the guard holds, the iteration leaves the contact SUPPRESSED with a
"hygiene-risk" row present, counts the status transition exactly when the
contact was not already SUPPRESSED, creates a row exactly when none existed,
keeps the rows unchanged when one existed, and never leaves more than
`max (countHR c) 1` rows. -/
theorem sweepContactStep_applies (o : Option Bool) (n : ℤ) (c : SweepContact)
    (h : sweepApplies o c) :
    (sweepContactStep o n c).newContact.status = ContactStatus.SUPPRESSED ∧
    (sweepContactStep o n c).newContact.tags = c.tags ∧
    ((sweepContactStep o n c).suppressed = true ↔ c.status ≠ ContactStatus.SUPPRESSED) ∧
    ((sweepContactStep o n c).createdSuppression = true ↔
      ¬ c.suppressions.any (fun s => s.reason = HYGIENE_SUPPRESSION_REASON) = true) ∧
    (c.suppressions.any (fun s => s.reason = HYGIENE_SUPPRESSION_REASON) = true →
      (sweepContactStep o n c).newContact.suppressions = c.suppressions) ∧
    (sweepContactStep o n c).newContact.suppressions.any
      (fun s => s.reason = HYGIENE_SUPPRESSION_REASON) = true ∧
    countHR (sweepContactStep o n c).newContact ≤ max (countHR c) 1 := by
  have hg : ((computeHygieneScore (hygieneInputOf c) n).riskLevel = HygieneRiskLevel.HIGH ∧
      o ≠ some false ∧ c.tags.contains "synthetic" = false) := by
    rw [sweepContactStep_guard_iff]
    exact h
  simp only [sweepContactStep]
  rw [if_pos hg]
  by_cases hhas : (c.suppressions.any fun s => decide (s.reason = HYGIENE_SUPPRESSION_REASON)) =
      true
  · have hhas2 : ∃ x ∈ c.suppressions, x.reason = "hygiene-risk" := by
      simpa [HYGIENE_SUPPRESSION_REASON] using hhas
    by_cases halready : c.status = ContactStatus.SUPPRESSED <;>
      simp [halready, hhas2, countHR, le_max_left, HYGIENE_SUPPRESSION_REASON]
  · have hhas2 : ¬ ∃ x ∈ c.suppressions, x.reason = "hygiene-risk" := by
      simpa [HYGIENE_SUPPRESSION_REASON] using hhas
    have hnil : c.suppressions.filter (fun s => decide (s.reason = "hygiene-risk")) = [] := by
      rw [List.filter_eq_nil_iff]
      intro a ha
      simp only [not_exists, not_and] at hhas2
      simpa using hhas2 a ha
    have hcnt : countHR c = 0 := by
      simp [countHR, HYGIENE_SUPPRESSION_REASON, hnil]
    by_cases halready : c.status = ContactStatus.SUPPRESSED <;>
      simp [halready, hhas2, countHR, List.filter_append, hnil, hcnt,
        HYGIENE_SUPPRESSION_REASON] <;>
      (intro x hx hr
       exact hhas2 ⟨x, hx, hr⟩)

/-- One sweep iteration never leaves more than `max (countHR c) 1` rows. -/
theorem sweepContactStep_countHR_le (o : Option Bool) (n : ℤ) (c : SweepContact) :
    countHR (sweepContactStep o n c).newContact ≤ max (countHR c) 1 := by
  by_cases h : sweepApplies o c
  · exact (sweepContactStep_applies o n c h).2.2.2.2.2.2
  · have hsupp := (sweepContactStep_not_applies o n c h).2.2.1
    rw [countHR, hsupp]
    exact le_max_left _ _

/-- Applying the iteration to its own output changes neither the status nor the
suppression rows and stages no suppression side effect: per-contact idempotence
of the sweep's suppression behavior. -/
theorem sweepContactStep_idem (o : Option Bool) (n : ℤ) (c : SweepContact) :
    (sweepContactStep o n (sweepContactStep o n c).newContact).newContact.status =
      (sweepContactStep o n c).newContact.status ∧
    (sweepContactStep o n (sweepContactStep o n c).newContact).newContact.suppressions =
      (sweepContactStep o n c).newContact.suppressions ∧
    (sweepContactStep o n (sweepContactStep o n c).newContact).suppressed = false ∧
    (sweepContactStep o n (sweepContactStep o n c).newContact).createdSuppression = false := by
  by_cases h : sweepApplies o c
  · obtain ⟨hstat, htags, hsup, hcr, hkeep, hany, hcount⟩ := sweepContactStep_applies o n c h
    have h2 : sweepApplies o (sweepContactStep o n c).newContact := by
      unfold sweepApplies at h ⊢
      exact ⟨Or.inr (Or.inr hstat), h.2.1, htags ▸ h.2.2⟩
    obtain ⟨hstat2, htags2, hsup2, hcr2, hkeep2, hany2, hcount2⟩ :=
      sweepContactStep_applies o n _ h2
    refine ⟨by rw [hstat2, hstat], hkeep2 hany, ?_, ?_⟩
    · rcases Bool.eq_false_or_eq_true
        ((sweepContactStep o n (sweepContactStep o n c).newContact).suppressed) with hb | hb
      · exact absurd hstat (hsup2.mp hb)
      · exact hb
    · rcases Bool.eq_false_or_eq_true
        ((sweepContactStep o n (sweepContactStep o n c).newContact).createdSuppression) with
        hb | hb
      · exact absurd hany (hcr2.mp hb)
      · exact hb
  · obtain ⟨hstat, htags, hsupp, hflag, hcr⟩ := sweepContactStep_not_applies o n c h
    have h2 : ¬ sweepApplies o (sweepContactStep o n c).newContact := by
      unfold sweepApplies at h ⊢
      rw [hstat, htags]
      exact h
    obtain ⟨hstat2, htags2, hsupp2, hflag2, hcr2⟩ := sweepContactStep_not_applies o n _ h2
    exact ⟨hstat2, hsupp2, hflag2, hcr2⟩

/-- The batch prefix length the sweep processes (`take` bound resolved). -/
def sweepPrefixLen (options : HygieneSweepOptions) (state : SweepState) : ℕ :=
  match options.limit with
  | some nl => nl
  | none => state.contacts.length

/-- Uniform characterization of one sweep's contact table and suppression
counters, valid also through the empty-batch early return. -/
theorem runHygieneSweep_characterization (options : HygieneSweepOptions) (state : SweepState) :
    (runHygieneSweep options state).1.contacts =
      (state.contacts.take (sweepPrefixLen options state)).map
        (fun c => (sweepContactStep options.suppressHighRisk options.nowMs c).newContact) ++
      state.contacts.drop (sweepPrefixLen options state) ∧
    (runHygieneSweep options state).2.contactsSuppressed =
      (((state.contacts.take (sweepPrefixLen options state)).map
        (sweepContactStep options.suppressHighRisk options.nowMs)).filter
          (fun e => e.suppressed)).length ∧
    (runHygieneSweep options state).2.suppressionsCreated =
      (((state.contacts.take (sweepPrefixLen options state)).map
        (sweepContactStep options.suppressHighRisk options.nowMs)).filter
          (fun e => e.createdSuppression)).length := by
  unfold runHygieneSweep sweepPrefixLen
  cases hl : options.limit with
  | none =>
    by_cases hempty : state.contacts.isEmpty
    · have hnil : state.contacts = [] := List.isEmpty_iff.mp hempty
      simp [hnil]
    · simp [hempty, List.take_length, List.drop_length, List.map_map, Function.comp]
  | some nl =>
    by_cases hempty : (state.contacts.take nl).isEmpty
    · have hnil : state.contacts.take nl = [] := List.isEmpty_iff.mp hempty
      rcases List.take_eq_nil_iff.mp hnil with h0 | h0
      · simp [hempty, hnil, h0]
      · simp [hempty, hnil, h0]
    · simp [hempty, List.map_map, Function.comp_def]

/-- The contact at any index after one sweep is either untouched or the result
of one sweep iteration on the contact previously at that index. -/
theorem runHygieneSweep_getElem_cases (options : HygieneSweepOptions) (state : SweepState)
    (i : ℕ) (c' : SweepContact)
    (h : (runHygieneSweep options state).1.contacts[i]? = some c') :
    ∃ c, state.contacts[i]? = some c ∧
      (c' = c ∨
        c' = (sweepContactStep options.suppressHighRisk options.nowMs c).newContact) := by
  obtain ⟨hc, -, -⟩ := runHygieneSweep_characterization options state
  rw [hc, List.getElem?_append] at h
  split at h
  · rw [List.getElem?_map, List.getElem?_take] at h
    split at h
    · cases hsi : state.contacts[i]? with
      | none =>
        rw [hsi] at h
        simp at h
      | some c =>
        rw [hsi] at h
        simp only [Option.map_some'] at h
        exact ⟨c, rfl, Or.inr (Option.some.inj h).symm⟩
    · simp at h
  · rename_i hge
    rw [List.getElem?_drop] at h
    simp only [List.length_map, List.length_take, not_lt] at hge
    simp only [List.length_map, List.length_take] at h
    rcases le_or_lt (sweepPrefixLen options state) state.contacts.length with hk | hk
    · have hmin : min (sweepPrefixLen options state) state.contacts.length =
          sweepPrefixLen options state := min_eq_left hk
      rw [hmin] at hge h
      have hidx : sweepPrefixLen options state + (i - sweepPrefixLen options state) = i := by
        omega
      rw [hidx] at h
      exact ⟨c', h, Or.inl rfl⟩
    · have hmin : min (sweepPrefixLen options state) state.contacts.length =
          state.contacts.length := min_eq_right (le_of_lt hk)
      rw [hmin] at hge h
      rw [List.getElem?_eq_none (by omega)] at h
      simp at h

/-- The processed-prefix length is stable across a sweep (the sweep preserves
the contact count). -/
theorem sweepPrefixLen_stable (options : HygieneSweepOptions) (state : SweepState) :
    sweepPrefixLen options (runHygieneSweep options state).1 = sweepPrefixLen options state := by
  obtain ⟨hc, -, -⟩ := runHygieneSweep_characterization options state
  unfold sweepPrefixLen
  cases options.limit with
  | some nl => rfl
  | none =>
    simp only [hc, List.length_append, List.length_map, List.length_take, List.length_drop]
    omega

/-- The prefix a second sweep takes is exactly the mapped prefix of the first. -/
theorem runHygieneSweep_take_drop (options : HygieneSweepOptions) (state : SweepState) :
    (runHygieneSweep options state).1.contacts.take (sweepPrefixLen options state) =
      (state.contacts.take (sweepPrefixLen options state)).map
        (fun c => (sweepContactStep options.suppressHighRisk options.nowMs c).newContact) ∧
    (runHygieneSweep options state).1.contacts.drop (sweepPrefixLen options state) =
      state.contacts.drop (sweepPrefixLen options state) := by
  obtain ⟨hc, -, -⟩ := runHygieneSweep_characterization options state
  have hlenA : ((state.contacts.take (sweepPrefixLen options state)).map
      (fun c => (sweepContactStep options.suppressHighRisk options.nowMs c).newContact)).length =
      min (sweepPrefixLen options state) state.contacts.length := by
    simp
  constructor
  · rw [hc, List.take_append_eq_append_take]
    rw [List.take_of_length_le (by rw [hlenA]; exact min_le_left _ _), hlenA]
    rcases le_or_lt (sweepPrefixLen options state) state.contacts.length with hk | hk
    · rw [min_eq_left hk]
      simp
    · rw [min_eq_right (le_of_lt hk)]
      rw [List.drop_eq_nil_of_le (le_of_lt hk)]
      simp
  · rw [hc, List.drop_append_eq_append_drop]
    rw [List.drop_eq_nil_of_le (by rw [hlenA]; exact min_le_left _ _), hlenA]
    rcases le_or_lt (sweepPrefixLen options state) state.contacts.length with hk | hk
    · rw [min_eq_left hk]
      simp
    · rw [min_eq_right (le_of_lt hk)]
      rw [List.drop_eq_nil_of_le (le_of_lt hk)]
      simp

/-- Claim C4: across arbitrarily many sweeps with no intervening status change,
at most one "hygiene-risk" Suppression row is created per contact (the count
never exceeds `max (initial count) 1`); a contact already SUPPRESSED is never
status-transitioned nor counted in `contactsSuppressed`; and a second sweep's
suppression side effects are a no-op — statuses and suppression rows unchanged,
`contactsSuppressed = 0` and `suppressionsCreated = 0`. -/
theorem C4_sweep_suppression_idempotent (options : HygieneSweepOptions) (state : SweepState) :
    (∀ (k i : ℕ) (c0 ck : SweepContact),
      state.contacts[i]? = some c0 →
      ((fun st => (runHygieneSweep options st).1)^[k] state).contacts[i]? = some ck →
      countHR ck ≤ max (countHR c0) 1) ∧
    (∀ contact : SweepContact, contact.status = ContactStatus.SUPPRESSED →
      (sweepContactStep options.suppressHighRisk options.nowMs contact).newContact.status =
        ContactStatus.SUPPRESSED ∧
      (sweepContactStep options.suppressHighRisk options.nowMs contact).suppressed = false) ∧
    ((runHygieneSweep options (runHygieneSweep options state).1).1.contacts.map
        (fun c => c.status) =
      (runHygieneSweep options state).1.contacts.map (fun c => c.status)) ∧
    ((runHygieneSweep options (runHygieneSweep options state).1).1.contacts.map
        (fun c => c.suppressions) =
      (runHygieneSweep options state).1.contacts.map (fun c => c.suppressions)) ∧
    (runHygieneSweep options (runHygieneSweep options state).1).2.contactsSuppressed = 0 ∧
    (runHygieneSweep options (runHygieneSweep options state).1).2.suppressionsCreated = 0 := by
  obtain ⟨htake, hdrop⟩ := runHygieneSweep_take_drop options state
  have hk2 := sweepPrefixLen_stable options state
  obtain ⟨hc2, hcs2, hsc2⟩ :=
    runHygieneSweep_characterization options (runHygieneSweep options state).1
  obtain ⟨hc1, -, -⟩ := runHygieneSweep_characterization options state
  refine ⟨?_, ?_, ?_, ?_, ?_, ?_⟩
  · intro k
    induction k with
    | zero =>
      intro i c0 ck h0 hk
      rw [Function.iterate_zero_apply, h0] at hk
      rw [Option.some.inj hk]
      exact le_max_left _ _
    | succ m ih =>
      intro i c0 ck h0 hk
      rw [Function.iterate_succ_apply'] at hk
      obtain ⟨cm, hcm, hcase⟩ := runHygieneSweep_getElem_cases options _ i ck hk
      have hbound := ih i c0 cm h0 hcm
      rcases hcase with rfl | rfl
      · exact hbound
      · calc countHR (sweepContactStep options.suppressHighRisk options.nowMs cm).newContact ≤
            max (countHR cm) 1 := sweepContactStep_countHR_le _ _ _
          _ ≤ max (max (countHR c0) 1) 1 := max_le_max hbound (le_refl 1)
          _ = max (countHR c0) 1 := by rw [max_assoc, max_self]
  · intro contact hsupp
    by_cases h : sweepApplies options.suppressHighRisk contact
    · obtain ⟨hstat, -, hsup, -, -, -, -⟩ :=
        sweepContactStep_applies options.suppressHighRisk options.nowMs contact h
      refine ⟨hstat, ?_⟩
      rcases Bool.eq_false_or_eq_true
          ((sweepContactStep options.suppressHighRisk options.nowMs contact).suppressed) with
          hb | hb
      · exact absurd hsupp (hsup.mp hb)
      · exact hb
    · obtain ⟨hstat, -, -, hflag, -⟩ :=
        sweepContactStep_not_applies options.suppressHighRisk options.nowMs contact h
      exact ⟨hstat.trans hsupp, hflag⟩
  · rw [hc2, hk2, htake, hdrop, hc1]
    simp only [List.map_append, List.map_map]
    congr 1
    apply List.map_congr_left
    intro a ha
    simp only [Function.comp_apply]
    exact (sweepContactStep_idem options.suppressHighRisk options.nowMs a).1
  · rw [hc2, hk2, htake, hdrop, hc1]
    simp only [List.map_append, List.map_map]
    congr 1
    apply List.map_congr_left
    intro a ha
    simp only [Function.comp_apply]
    exact (sweepContactStep_idem options.suppressHighRisk options.nowMs a).2.1
  · rw [hcs2, hk2, htake]
    rw [List.length_eq_zero, List.filter_eq_nil_iff]
    intro e he
    rw [List.map_map] at he
    obtain ⟨a, ha, rfl⟩ := List.mem_map.mp he
    simp only [Function.comp_apply]
    simp [(sweepContactStep_idem options.suppressHighRisk options.nowMs a).2.2.1]
  · rw [hsc2, hk2, htake]
    rw [List.length_eq_zero, List.filter_eq_nil_iff]
    intro e he
    rw [List.map_map] at he
    obtain ⟨a, ha, rfl⟩ := List.mem_map.mp he
    simp only [Function.comp_apply]
    simp [(sweepContactStep_idem options.suppressHighRisk options.nowMs a).2.2.2]

/-- A concrete already-SUPPRESSED contact used by the C4 witness. -/
def c4Contact : SweepContact :=
  { id := "c4"
    status := ContactStatus.SUPPRESSED
    tags := []
    lastEventAt := none
    lastMessageSentAt := none
    propensity := none
    hygieneRiskLevel := none
    hygieneScore := none
    suppressions := [] }

/-- Witness applying C4 at a concrete one-contact state: the k = 0 iterate
bound and the already-SUPPRESSED no-transition fact. -/
theorem C4_sweep_suppression_idempotent_witness :
    countHR c4Contact ≤ max (countHR c4Contact) 1 ∧
    ((sweepContactStep (some true) 0 c4Contact).newContact.status =
      ContactStatus.SUPPRESSED ∧
    (sweepContactStep (some true) 0 c4Contact).suppressed = false) :=
  ⟨(C4_sweep_suppression_idempotent ⟨some true, none, 0⟩ ⟨[c4Contact], []⟩).1 0 0
      c4Contact c4Contact rfl rfl,
    (C4_sweep_suppression_idempotent ⟨some true, none, 0⟩ ⟨[c4Contact], []⟩).2.1
      c4Contact rfl⟩

end Newsletter
